import Mathlib

/-!
Verification development for the digital-avatar frontend core:
the `avatarService` pipeline (`src/frontend/src/services/avatarService.ts`),
the `useWebSocket` connection hook (`src/frontend/src/hooks/useWebSocket.ts`),
the `VoiceRecorder` send path and the `AvatarSystem` / `AvatarPage` /
`ChatInterface` components.  Each TypeScript function relevant to the
properties under study is shallowly embedded as an executable Lean
definition; network calls are modelled by explicit outcome parameters
(`Fetch`), and the React state touched by a handler is modelled as an
explicit state record transformed by the handler.
-/

/-- The character class stripped by JavaScript's `String.prototype.trim`
(ASCII blanks plus the no-break space; the exotic Unicode space
separators are omitted as irrelevant to the sources' inputs). -/
def isJsWhitespace (c : Char) : Bool :=
  c == ' ' || c == '\t' || c == '\n' || c == '\r' || c == '\u000B' || c == '\u000C' ||
    c == '\u00A0'

/-- JavaScript's `String.prototype.trim`: strips leading and trailing
whitespace. -/
def jsTrim (s : String) : String :=
  ⟨((s.data.dropWhile isJsWhitespace).reverse.dropWhile isJsWhitespace).reverse⟩

/-- Outcome of one `fetch` call as observed by the calling code:
`ok` (2xx response with a parsed body), `fail status` (response received
but `!response.ok`), or `netError` (the fetch promise rejected at the
transport level, e.g. the browser TypeError "Failed to fetch"). -/
inductive Fetch (α : Type) where
  | ok (a : α)
  | fail (status : Nat)
  | netError
deriving DecidableEq

/-- Body of `POST /api/v1/recognize-speech` (`SpeechRecognitionResponse`
in avatarService.ts).  The numeric confidence plays no role in control
flow and is modelled as a `Nat`. -/
structure RecognitionResponse where
  text : String
  confidence : Nat
deriving DecidableEq

/-- Body of `POST /api/v1/chat/chat` (`AIResponse` in avatarService.ts). -/
structure AIResponse where
  text : String
  emotion : Option String
deriving DecidableEq

/-- Body of `POST /synthesize`: the TTS backend returns an audio id and
an optional duration (`result.duration || 0` in the source). -/
structure SynthRaw where
  audio_id : String
  duration : Option Nat
deriving DecidableEq

/-- Value returned by `synthesizeSpeech` (`TTSResponse` in
avatarService.ts): the object URL of the fetched audio blob plus a
duration. -/
structure TTSResponse where
  audio_url : String
  duration : Nat
deriving DecidableEq

/-- The network environment of one `processAudioInput` run: the outcome
of each HTTP endpoint the pipeline may contact.  Request-dependent
endpoints are functions of the request payload. -/
structure ServiceEnv where
  recognizeFetch : Fetch RecognitionResponse
  chatFetch : String → Fetch AIResponse
  synthesizeFetch : String → Fetch SynthRaw
  audioFetch : String → Fetch String

/-- Every distinct throw site of the avatarService pipeline.  The
`*Failed` constructors carry the HTTP status interpolated into the
thrown message; the `*Network` constructors are transport-level fetch
rejections propagated unchanged through the stage's catch/rethrow. -/
inductive PipelineError where
  | recognitionFailed (status : Nat)
  | recognitionNetwork
  | recognitionEmpty
  | generationFailed (status : Nat)
  | generationNetwork
  | synthesisFailed (status : Nat)
  | synthesisNetwork
  | audioFetchFailed
  | audioFetchNetwork
deriving DecidableEq

/-- The `error.message` string carried by each throw site of
avatarService.ts.  A transport-level fetch rejection surfaces the
browser's generic TypeError message, identical for every stage. -/
def errMessage : PipelineError → String
  | .recognitionFailed status => s!"Ошибка распознавания речи: {status}"
  | .recognitionNetwork => "Failed to fetch"
  | .recognitionEmpty => "Не удалось распознать речь"
  | .generationFailed status => s!"Ошибка получения ответа AI: {status}"
  | .generationNetwork => "Failed to fetch"
  | .synthesisFailed status => s!"Ошибка синтеза речи: {status}"
  | .synthesisNetwork => "Failed to fetch"
  | .audioFetchFailed => "Ошибка получения аудио файла"
  | .audioFetchNetwork => "Failed to fetch"

/-- `AvatarService.recognizeSpeech`: POSTs the audio and throws on a
non-ok response. -/
def recognizeSpeech (env : ServiceEnv) : Except PipelineError RecognitionResponse :=
  match env.recognizeFetch with
  | .ok r => .ok r
  | .fail status => .error (.recognitionFailed status)
  | .netError => .error .recognitionNetwork

/-- `AvatarService.getAIResponse`: POSTs the message text and throws on
a non-ok response. -/
def getAIResponse (env : ServiceEnv) (text : String) : Except PipelineError AIResponse :=
  match env.chatFetch text with
  | .ok r => .ok r
  | .fail status => .error (.generationFailed status)
  | .netError => .error .generationNetwork

/-- `AvatarService.synthesizeSpeech`: POSTs the text, then fetches the
produced audio file by id; either sub-request can fail.  The returned
`audio_url` is the object URL of the audio blob and the duration is
`result.duration || 0`. -/
def synthesizeSpeech (env : ServiceEnv) (text : String) : Except PipelineError TTSResponse :=
  match env.synthesizeFetch text with
  | .fail status => .error (.synthesisFailed status)
  | .netError => .error .synthesisNetwork
  | .ok raw =>
    match env.audioFetch raw.audio_id with
    | .fail _ => .error .audioFetchFailed
    | .netError => .error .audioFetchNetwork
    | .ok blobUrl => .ok ⟨blobUrl, raw.duration.getD 0⟩

/-- The three pipeline stages of `processAudioInput`, in source order.
A tag appears in a run's trace exactly when the corresponding service
was contacted during that run. -/
inductive StageTag where
  | recognition
  | generation
  | synthesis
deriving DecidableEq

/-- Result object of a successful `processAudioInput` run. -/
structure PipelineResult where
  recognizedText : String
  aiResponse : String
  audioUrl : String
deriving DecidableEq

/-- `AvatarService.processAudioInput`, instrumented with the list of
stages whose service was contacted, in call order.  Mirrors the source:
recognize, throw `recognitionEmpty` if the recognized text trims to
empty, then generate, then synthesize; the first thrown error aborts
the sequence. -/
def processAudioInputT (env : ServiceEnv) :
    Except PipelineError PipelineResult × List StageTag :=
  match recognizeSpeech env with
  | .error e => (.error e, [.recognition])
  | .ok recognition =>
    if jsTrim recognition.text = "" then
      (.error .recognitionEmpty, [.recognition])
    else
      match getAIResponse env recognition.text with
      | .error e => (.error e, [.recognition, .generation])
      | .ok aiResponse =>
        match synthesizeSpeech env aiResponse.text with
        | .error e => (.error e, [.recognition, .generation, .synthesis])
        | .ok tts =>
          (.ok ⟨recognition.text, aiResponse.text, tts.audio_url⟩,
           [.recognition, .generation, .synthesis])

/-- The value/error of a `processAudioInput` run, without the trace. -/
def processAudioInput (env : ServiceEnv) : Except PipelineError PipelineResult :=
  (processAudioInputT env).1

/-- The stage at which a given pipeline error arises (the audio-file
sub-fetch belongs to the synthesis stage). -/
def stageOf : PipelineError → StageTag
  | .recognitionFailed _ => .recognition
  | .recognitionNetwork => .recognition
  | .recognitionEmpty => .recognition
  | .generationFailed _ => .generation
  | .generationNetwork => .generation
  | .synthesisFailed _ => .synthesis
  | .synthesisNetwork => .synthesis
  | .audioFetchFailed => .synthesis
  | .audioFetchNetwork => .synthesis

/-- The stages contacted by a run that proceeds up to (and including)
the given stage and no further. -/
def stagesUpTo : StageTag → List StageTag
  | .recognition => [.recognition]
  | .generation => [.recognition, .generation]
  | .synthesis => [.recognition, .generation, .synthesis]

/-! ## AvatarSystem (components/AvatarSystem.tsx): message history updates -/

/-- Role of a chat message (`type` field of `AvatarSystem`'s `Message`). -/
inductive Role where
  | user
  | assistant
deriving DecidableEq

/-- `AvatarSystem`'s `Message` record, minus the id/timestamp bookkeeping
that plays no role in the properties studied here. -/
structure Msg where
  role : Role
  text : String
  audio : Option String
deriving DecidableEq

/-- The `AvatarSystem` component state touched by `processAudioInput`. -/
structure SysState where
  messages : List Msg
  isProcessing : Bool
  errorMsg : Option String
deriving DecidableEq

/-- `AvatarSystem.processAudioInput`: runs the avatarService pipeline;
on success appends the user message (recognized text) and then the
assistant message (AI response plus audio url); on error records the
error message and appends nothing; `isProcessing` is reset in the
`finally` block on both paths. -/
def systemProcessAudioInput (env : ServiceEnv) (s : SysState) : SysState :=
  match processAudioInput env with
  | .ok r =>
    { messages := s.messages ++
        [⟨.user, r.recognizedText, none⟩, ⟨.assistant, r.aiResponse, some r.audioUrl⟩],
      isProcessing := false,
      errorMsg := none }
  | .error e =>
    { messages := s.messages, isProcessing := false, errorMsg := some (errMessage e) }

/-! ## AvatarPage (components/AvatarPage.tsx) and its VoiceRecorder wiring -/

/-- Sender of an `AvatarPage` / `ChatInterface` chat message. -/
inductive Sender where
  | user
  | avatar
deriving DecidableEq

/-- `AvatarPage`'s / `ChatInterface`'s `Message` record, minus
id/timestamp bookkeeping. -/
structure PageMsg where
  sender : Sender
  text : String
deriving DecidableEq

/-- Argument of `AvatarPage.handleAvatarResponse` after the inline
wiring `{ ...resp, recognizedText: resp.text ?? "" }` has been applied:
`text` and `audioUrl` come from the VoiceRecorder callback and
`recognizedText` is whatever that wiring filled in. -/
structure AvatarResponse where
  text : String
  audioUrl : String
  recognizedText : String
deriving DecidableEq

/-- `AvatarPage.handleAvatarResponse` restricted to its message-history
effect: when `response.recognizedText` is truthy (a non-empty string)
it appends a user message carrying `recognizedText` and then an avatar
message carrying `response.text`; otherwise it appends nothing. -/
def handleAvatarResponse (resp : AvatarResponse) (messages : List PageMsg) : List PageMsg :=
  if resp.recognizedText ≠ "" then
    messages ++ [⟨.user, resp.recognizedText⟩, ⟨.avatar, resp.text⟩]
  else
    messages

/-- The wiring in `AvatarPage`'s JSX:
`onResponseReceived={(resp) => handleAvatarResponse({ ...resp, recognizedText: resp.text ?? "" })}`.
The VoiceRecorder invokes `onResponseReceived` with
`{ text: result.aiResponse, audioUrl: result.audioUrl }`, so
`recognizedText` is populated with the AI response text. -/
def avatarPageOnResponse (respText respAudio : String) : AvatarResponse :=
  ⟨respText, respAudio, respText⟩

/-- The end-to-end effect of one voice turn on `AvatarPage`'s message
history: VoiceRecorder runs the avatarService pipeline and, on success
only, calls `onResponseReceived` with the AI response text and audio
url, which `AvatarPage` routes into `handleAvatarResponse`. -/
def avatarPageAudioFlow (env : ServiceEnv) (messages : List PageMsg) : List PageMsg :=
  match processAudioInput env with
  | .ok r => handleAvatarResponse (avatarPageOnResponse r.aiResponse r.audioUrl) messages
  | .error _ => messages

/-! ## VoiceRecorder (components/VoiceRecorder.tsx): handleSendAudio -/

/-- The VoiceRecorder state read and written by `handleSendAudio`
(`audioBlob`, the parent-owned `isProcessing` flag, and the error
banner).  The blob contents are irrelevant, only its presence. -/
structure SendState where
  audioBlob : Option Unit
  isProcessing : Bool
  lastError : Option String
deriving DecidableEq

/-- `VoiceRecorder.handleSendAudio`: returns immediately when there is
no recorded blob or a run is already in flight (`!audioBlob ||
isProcessing`); otherwise runs `avatarService.processAudioInput`.  On
success the blob is cleared; on error the thrown message is shown; the
`finally` block resets `isProcessing`.  The guard inspects only
`audioBlob` and `isProcessing`: the `isConnected` prop is never
consulted, so the parameter is unused exactly as in the source.  The
returned trace lists the inference services contacted. -/
def handleSendAudioRun ( isConnected : Bool) (env : ServiceEnv) (s : SendState) :
    SendState × List StageTag :=
  if s.audioBlob.isNone || s.isProcessing then (s, [])
  else
    match processAudioInputT env with
    | (.ok _, trace) =>
      ({ audioBlob := none, isProcessing := false, lastError := none }, trace)
    | (.error e, trace) =>
      ({ audioBlob := s.audioBlob, isProcessing := false,
         lastError := some (errMessage e) }, trace)

/-! ## Single-flight behaviour of handleSendAudio as an event machine

To talk about overlapping invocations we split `handleSendAudio` into
its synchronous start (the guard plus entering the processing state)
and the asynchronous completion of the awaited pipeline promise, and
run the VoiceRecorder as a small-step machine over these events.  Runs
are given fresh identifiers at start so that "which run is active" is
observable; `activeRuns` is the multiset of runs whose promise is still
pending (the source keeps at most one, which is exactly the invariant
proved below). -/

/-- VoiceRecorder state for the event machine. -/
structure VrState where
  audioBlob : Option Unit
  isProcessing : Bool
  activeRuns : List Nat
  nextRunId : Nat
deriving DecidableEq

/-- Events of the VoiceRecorder machine: a recording finishing
(`onstop` storing the blob), a `handleSendAudio` invocation, and the
success/failure completion of a pending run's awaited pipeline. -/
inductive VrEvent where
  | recordDone
  | invoke
  | completeOk (rid : Nat)
  | completeErr (rid : Nat)
deriving DecidableEq

/-- The synchronous prefix of `handleSendAudio`: the `!audioBlob ||
isProcessing` early return, otherwise `onProcessingChange(true)` and
the start of a fresh pipeline run. -/
def vrInvoke (s : VrState) : VrState :=
  if s.audioBlob.isNone || s.isProcessing then s
  else
    { audioBlob := s.audioBlob, isProcessing := true,
      activeRuns := s.activeRuns ++ [s.nextRunId], nextRunId := s.nextRunId + 1 }

/-- One step of the VoiceRecorder machine.  A completion event is only
meaningful for a run that is actually pending; success clears the blob
(`setAudioBlob(null)`), failure keeps it, and both run the `finally`
reset of `isProcessing`. -/
def vrStep (s : VrState) : VrEvent → VrState
  | .recordDone => { s with audioBlob := some () }
  | .invoke => vrInvoke s
  | .completeOk rid =>
    if rid ∈ s.activeRuns then
      { audioBlob := none, isProcessing := false,
        activeRuns := s.activeRuns.erase rid, nextRunId := s.nextRunId }
    else s
  | .completeErr rid =>
    if rid ∈ s.activeRuns then
      { audioBlob := s.audioBlob, isProcessing := false,
        activeRuns := s.activeRuns.erase rid, nextRunId := s.nextRunId }
    else s

/-- Initial VoiceRecorder state: no blob, not processing, no runs. -/
def vrInit : VrState := ⟨none, false, [], 0⟩

/-- Run the VoiceRecorder machine over a list of events. -/
def vrRun (events : List VrEvent) : VrState :=
  events.foldl vrStep vrInit

/-- The VoiceRecorder single-flight invariant: at most one pipeline run
is pending, and `isProcessing` is set exactly while one is. -/
def VrInv (s : VrState) : Prop :=
  s.activeRuns.length ≤ 1 ∧ (s.isProcessing = true ↔ s.activeRuns ≠ [])

/-! ## useWebSocket (hooks/useWebSocket.ts) plus AvatarSystem's reconnect effect

The hook is modelled as a state machine driven by explicit events:
invocations of `connect`/`disconnect`, transport events delivered to
the handlers of the currently referenced socket (`wsRef.current`), the
hook's own reconnect timer, and the `AvatarSystem` effect that watches
`connectionStatus` and schedules its own `connect()` after 5s whenever
the status is Disconnected or Error.  Transport events are modelled
atomically with the readyState change they report.

This machine tracks only the currently referenced socket
(`wsRef.current`): transport events of a socket that has been replaced
by a later `connect()` are dropped.  The restriction is harmless for
the reconnect-counter properties — every `onclose` handler, whichever
socket fires it, increments the shared counter only while below the
maximum — but it cannot represent the status desynchronisation that a
replaced socket's still-attached handlers cause.  The multi-socket
model further below (`WsFullState`) lifts the restriction and is used
for the send-gating property. -/

/-- The hook's `ConnectionStatus` union. -/
inductive ConnStatus where
  | Connecting
  | Connected
  | Disconnected
  | Error
deriving DecidableEq

/-- WebSocket readyState of the currently referenced socket. -/
inductive ReadyState where
  | connecting
  | open
  | closing
  | closed
deriving DecidableEq

/-- The hook options relevant here (source defaults: 3000 ms interval,
5 attempts). -/
structure WsConfig where
  reconnectInterval : Nat
  maxReconnectAttempts : Nat
deriving DecidableEq

/-- The source's default options. -/
def defaultCfg : WsConfig := ⟨3000, 5⟩

/-- Combined state of the hook and the `AvatarSystem` reconnect effect:
`ws` is `wsRef.current`'s readyState (`none` when the ref is null),
`pendingReconnect` the hook's scheduled reconnect timer,
`avatarPending` the AvatarSystem effect's scheduled timer,
`socketsOpened` counts `new WebSocket(url)` constructions, and
`sentLog` records payloads handed to a transport (always empty here;
sends are treated in the multi-socket model, which represents the
stale-socket states that gate them). -/
structure HookState where
  connectionStatus : ConnStatus
  reconnectAttempts : Nat
  ws : Option ReadyState
  pendingReconnect : Bool
  avatarPending : Bool
  socketsOpened : Nat
  sentLog : List String
deriving DecidableEq

/-- `connect()`: returns immediately iff the current socket's
readyState is OPEN; otherwise sets status Connecting and constructs a
new WebSocket that replaces the ref (any non-open previous socket is
dropped without being closed). -/
def connect (s : HookState) : HookState :=
  if s.ws = some .open then s
  else
    { s with connectionStatus := .Connecting, ws := some .connecting,
             socketsOpened := s.socketsOpened + 1 }

/-- `disconnect()`: clears the hook's pending reconnect timer, closes
and drops the socket, forces Disconnected and resets the attempt
counter. -/
def disconnect (s : HookState) : HookState :=
  { s with pendingReconnect := false, ws := none,
           connectionStatus := .Disconnected, reconnectAttempts := 0 }

/-- `ws.onopen` on the current socket: fires when the connecting socket
opens; sets Connected and resets the attempt counter.  (An open event
of a replaced socket is dropped by this machine; `openEventFull` below
keeps it.) -/
def openEvent (s : HookState) : HookState :=
  if s.ws = some .connecting then
    { s with ws := some .open, connectionStatus := .Connected, reconnectAttempts := 0 }
  else s

/-- `ws.onclose` on the current socket: the transport reaches CLOSED
and the handler sets Disconnected; then, if the attempt counter is
below the maximum, it increments the counter and schedules the
reconnect timer, else it overwrites the status with Error and schedules
nothing.  (A close event of a replaced socket is dropped by this
machine; `closeEventFull` below keeps it.) -/
def closeEvent (cfg : WsConfig) (s : HookState) : HookState :=
  match s.ws with
  | none => s
  | some rs =>
    if rs = .closed then s
    else
      if s.reconnectAttempts < cfg.maxReconnectAttempts then
        { s with ws := some .closed, connectionStatus := .Disconnected,
                 reconnectAttempts := s.reconnectAttempts + 1, pendingReconnect := true }
      else
        { s with ws := some .closed, connectionStatus := .Error }

/-- `ws.onerror` on the current socket: the transport has failed (it is
no longer open; a close event follows) and the handler sets Error. -/
def errorEvent (s : HookState) : HookState :=
  match s.ws with
  | none => s
  | some rs =>
    if rs = .closed then s
    else { s with ws := some .closing, connectionStatus := .Error }

/-- The hook's reconnect timer firing: calls `connect()`. -/
def timerFire (s : HookState) : HookState :=
  if s.pendingReconnect then connect { s with pendingReconnect := false } else s

/-- The `AvatarSystem` effect observing a status change: whenever the
status is Disconnected or Error it (re)schedules its own automatic
`connect()` for 5 seconds later. -/
def avatarEffectRun (s : HookState) : HookState :=
  if s.connectionStatus = .Disconnected ∨ s.connectionStatus = .Error then
    { s with avatarPending := true }
  else s

/-- The AvatarSystem reconnect timer firing: calls `connect()`. -/
def avatarTimerFire (s : HookState) : HookState :=
  if s.avatarPending then connect { s with avatarPending := false } else s

/-- Events driving the connection machine. -/
inductive WsEvent where
  | connectReq
  | disconnectReq
  | openEv
  | closeEv
  | errorEv
  | timerEv
  | avatarEffectEv
  | avatarTimerEv
deriving DecidableEq

/-- One step of the connection machine. -/
def wsStep (cfg : WsConfig) (s : HookState) : WsEvent → HookState
  | .connectReq => connect s
  | .disconnectReq => disconnect s
  | .openEv => openEvent s
  | .closeEv => closeEvent cfg s
  | .errorEv => errorEvent s
  | .timerEv => timerFire s
  | .avatarEffectEv => avatarEffectRun s
  | .avatarTimerEv => avatarTimerFire s

/-- Initial hook state: Disconnected, counter 0, no socket, no timers. -/
def wsInit : HookState := ⟨.Disconnected, 0, none, false, false, 0, []⟩

/-- Run the connection machine over a list of events. -/
def wsRun (cfg : WsConfig) (events : List WsEvent) : HookState :=
  events.foldl (wsStep cfg) wsInit

/-- The state invariant maintained by the single-socket machine: the
status is Connected exactly when the current socket is OPEN, and the
reconnect counter never exceeds the configured maximum.  The first
component is an artifact of this machine's single-socket restriction —
with stale sockets represented (the `evsC7` trace on the full model
below) status and the referenced socket desynchronise; only the
counter bound survives in the full model. -/
def WsInv (cfg : WsConfig) (s : HookState) : Prop :=
  (s.connectionStatus = .Connected ↔ s.ws = some .open) ∧
    s.reconnectAttempts ≤ cfg.maxReconnectAttempts

/-! ## Full multi-socket model of useWebSocket

`connect()` installs the four handlers on each socket it constructs and
replaces `wsRef.current` without closing the previous socket (the C9
analysis above).  A replaced socket is therefore still live: when its
transport eventually opens, errors or closes, its still-attached
handlers fire and mutate `connectionStatus` and the attempt counter
exactly as the current socket's handlers would — no handler checks
whether its socket is still the referenced one.  This model retains
every constructed socket, indexed by creation order, so stale events
are representable.  A second `connect()` while one socket is still
CONNECTING is reachable in the source: `checkServicesStatus` auto-calls
`connect()` every 30 s whenever the status is not Connected (Connecting
included), and the AvatarSystem 5 s reconnect timer scheduled during
Disconnected is not cancelled when the status changes to Connecting. -/

/-- State of the hook with every constructed socket retained:
`sockets` maps each socket's creation index to its readyState, `wsRef`
is the index of `wsRef.current`, and `sentLog` logs the payloads handed
to a transport by `sendMessage`. -/
structure WsFullState where
  connectionStatus : ConnStatus
  reconnectAttempts : Nat
  sockets : List ReadyState
  wsRef : Option Nat
  pendingReconnect : Bool
  sentLog : List String
deriving DecidableEq

/-- The readyState of `wsRef.current` (`none` when the ref is null). -/
def refReadyState (s : WsFullState) : Option ReadyState :=
  s.wsRef.bind fun i => s.sockets.get? i

/-- The guard `wsRef.current?.readyState === WebSocket.OPEN`. -/
def refOpen (s : WsFullState) : Bool :=
  refReadyState s == some .open

/-- `connect()` in the full model: early return iff the referenced
socket is OPEN; otherwise set Connecting and construct a new socket
that replaces the ref, leaving the previous socket unclosed with its
handlers attached. -/
def connectFull (s : WsFullState) : WsFullState :=
  if refOpen s then s
  else
    { s with connectionStatus := .Connecting,
             sockets := s.sockets ++ [.connecting],
             wsRef := some s.sockets.length }

/-- `disconnect()` in the full model: clears the pending reconnect
timer, calls `close()` on the referenced socket (taking it to CLOSING;
its close handler fires later as an ordinary close event), nulls the
ref, forces Disconnected and resets the counter. -/
def disconnectFull (s : WsFullState) : WsFullState :=
  let closedSockets :=
    match s.wsRef with
    | none => s.sockets
    | some i =>
      match s.sockets.get? i with
      | some rs => if rs = .closed then s.sockets else s.sockets.set i .closing
      | none => s.sockets
  { s with pendingReconnect := false, sockets := closedSockets, wsRef := none,
           connectionStatus := .Disconnected, reconnectAttempts := 0 }

/-- `onopen` of socket `i`: fires when that socket's transport opens
(CONNECTING → OPEN); its handler sets Connected and resets the attempt
counter, whether or not the socket is still the referenced one. -/
def openEventFull (s : WsFullState) (i : Nat) : WsFullState :=
  match s.sockets.get? i with
  | some .connecting =>
    { s with sockets := s.sockets.set i .open,
             connectionStatus := .Connected, reconnectAttempts := 0 }
  | _ => s

/-- `onclose` of socket `i`: fires once, when that socket's transport
reaches CLOSED; its handler sets Disconnected and then either
increments the counter and schedules the reconnect timer (while below
the maximum) or overwrites the status with Error — whether or not the
socket is still the referenced one. -/
def closeEventFull (cfg : WsConfig) (s : WsFullState) (i : Nat) : WsFullState :=
  match s.sockets.get? i with
  | none => s
  | some rs =>
    if rs = .closed then s
    else
      if s.reconnectAttempts < cfg.maxReconnectAttempts then
        { s with sockets := s.sockets.set i .closed,
                 connectionStatus := .Disconnected,
                 reconnectAttempts := s.reconnectAttempts + 1, pendingReconnect := true }
      else
        { s with sockets := s.sockets.set i .closed, connectionStatus := .Error }

/-- `onerror` of socket `i`: that socket's transport has failed (its
close event follows); the handler sets Error. -/
def errorEventFull (s : WsFullState) (i : Nat) : WsFullState :=
  match s.sockets.get? i with
  | none => s
  | some rs =>
    if rs = .closed then s
    else { s with sockets := s.sockets.set i .closing, connectionStatus := .Error }

/-- The hook's reconnect timer firing in the full model: calls
`connect()`. -/
def timerFireFull (s : WsFullState) : WsFullState :=
  if s.pendingReconnect then connectFull { s with pendingReconnect := false } else s

/-- `sendMessage(message)`: when `wsRef.current?.readyState === OPEN`
it hands the payload to that transport and returns `true`; otherwise it
returns `false` having changed nothing.  It never throws and touches no
other state. -/
def sendMessageFull (s : WsFullState) (message : String) : WsFullState × Bool :=
  if refOpen s then
    ({ s with sentLog := s.sentLog ++ [message] }, true)
  else
    (s, false)

/-- Events of the full model; a transport event names the socket whose
handlers run. -/
inductive WsFullEvent where
  | connectReq
  | disconnectReq
  | openEv (i : Nat)
  | closeEv (i : Nat)
  | errorEv (i : Nat)
  | timerEv
deriving DecidableEq

/-- One step of the full connection machine. -/
def wsFullStep (cfg : WsConfig) (s : WsFullState) : WsFullEvent → WsFullState
  | .connectReq => connectFull s
  | .disconnectReq => disconnectFull s
  | .openEv i => openEventFull s i
  | .closeEv i => closeEventFull cfg s i
  | .errorEv i => errorEventFull s i
  | .timerEv => timerFireFull s

/-- Initial full state: Disconnected, no socket ever constructed. -/
def wsFullInit : WsFullState := ⟨.Disconnected, 0, [], none, false, []⟩

/-- Run the full connection machine over a list of events. -/
def wsFullRun (cfg : WsConfig) (events : List WsFullEvent) : WsFullState :=
  events.foldl (wsFullStep cfg) wsFullInit

/-! ## AvatarService.checkServices (HealthMonitor) -/

/-- A settled promise outcome as seen by `Promise.allSettled`:
fulfilled with a response whose `ok` flag is recorded, or rejected. -/
inductive Settled where
  | fulfilled (ok : Bool)
  | rejected
deriving DecidableEq

/-- `results[i].status === "fulfilled" && results[i].value.ok`. -/
def settledOk : Settled → Bool
  | .fulfilled k => k
  | .rejected => false

/-- The record returned by `checkServices`. -/
structure ServicesStatus where
  backend : Bool
  tts : Bool
  sadtalker : Bool
deriving DecidableEq

/-- `Promise.allSettled` over the three health probes.  Each probe's
eventual outcome is `some` settled result, or `none` when the fetch
never settles (the source attaches no timeout to these fetches, so a
hanging probe hangs forever); `allSettled` itself resolves exactly when
every probe has settled. -/
def allSettled3 (a b c : Option Settled) : Option (Settled × Settled × Settled) :=
  match a, b, c with
  | some x, some y, some z => some (x, y, z)
  | _, _, _ => none

/-- `AvatarService.checkServices`: issues the three health fetches
(backend, tts, sadtalker), awaits `Promise.allSettled`, and derives
each service's flag from its own probe's settled outcome.  The result
is `none` while any probe is still pending. -/
def checkServices (pb pt ps : Option Settled) : Option ServicesStatus :=
  (allSettled3 pb pt ps).map fun r => ⟨settledOk r.1, settledOk r.2.1, settledOk r.2.2⟩

/-! ## Text send paths: AvatarSystem.handleSendText and ChatInterface.handleSendMessage -/

/-- Payload sent over the coordination channel by `handleSendText`
(`JSON.stringify({ type: "user_message", text })`). -/
inductive WsOut where
  | userMessage (text : String)
deriving DecidableEq

/-- The `AvatarSystem` state touched by `handleSendText`. -/
structure TextState where
  messages : List Msg
  inputText : String
  isProcessing : Bool
  isConnected : Bool
  wsSent : List WsOut
deriving DecidableEq

/-- `AvatarSystem.handleSendText`: returns immediately when the input
trims to empty or the system is not connected; otherwise appends the
user message, clears the input, sets `isProcessing`, and sends the
`user_message` payload over the WebSocket (ignoring `sendMessage`'s
return value). -/
def handleSendText (s : TextState) : TextState :=
  if jsTrim s.inputText = "" ∨ s.isConnected = false then s
  else
    { messages := s.messages ++ [⟨.user, s.inputText, none⟩],
      inputText := "",
      isProcessing := true,
      isConnected := s.isConnected,
      wsSent := s.wsSent ++ [.userMessage s.inputText] }

/-- The `ChatInterface` state touched by `handleSendMessage`. -/
structure ChatState where
  messages : List PageMsg
  inputText : String
  isConnected : Bool
  isProcessing : Bool
deriving DecidableEq

/-- `ChatInterface.handleSendMessage`: returns immediately when the
input trims to empty, the chat is not connected, or a run is in
progress; otherwise appends the user message and clears the input (the
WebSocket send is still a TODO in the source). -/
def handleSendMessage (s : ChatState) : ChatState :=
  if jsTrim s.inputText = "" ∨ s.isConnected = false ∨ s.isProcessing = true then s
  else
    { messages := s.messages ++ [⟨.user, s.inputText⟩],
      inputText := "",
      isConnected := s.isConnected,
      isProcessing := s.isProcessing }

/-! ## Concrete test environments and traces -/

/-- A fully successful environment: recognition hears "Привет", the AI
answers "Здравствуй", synthesis produces audio id `a1` fetched as
`blob:a1`. -/
def envHello : ServiceEnv :=
  { recognizeFetch := .ok ⟨"Привет", 1⟩,
    chatFetch := fun _ => .ok ⟨"Здравствуй", none⟩,
    synthesizeFetch := fun _ => .ok ⟨"a1", some 3⟩,
    audioFetch := fun _ => .ok "blob:a1" }

/-- Recognition succeeds but returns whitespace-only text; every later
service would succeed if contacted. -/
def envEmptyRec : ServiceEnv :=
  { recognizeFetch := .ok ⟨"   ", 0⟩,
    chatFetch := fun _ => .ok ⟨"x", none⟩,
    synthesizeFetch := fun _ => .ok ⟨"id", none⟩,
    audioFetch := fun _ => .ok "blob:id" }

/-- Recognition succeeds; the generation endpoint answers HTTP 500. -/
def envChatFail : ServiceEnv :=
  { recognizeFetch := .ok ⟨"Привет", 1⟩,
    chatFetch := fun _ => .fail 500,
    synthesizeFetch := fun _ => .ok ⟨"id", none⟩,
    audioFetch := fun _ => .ok "blob:id" }

/-- The recognition fetch rejects at the transport level. -/
def envRecNet : ServiceEnv :=
  { recognizeFetch := .netError,
    chatFetch := fun _ => .netError,
    synthesizeFetch := fun _ => .netError,
    audioFetch := fun _ => .netError }

/-- Recognition succeeds; the generation fetch rejects at the
transport level. -/
def envChatNet : ServiceEnv :=
  { recognizeFetch := .ok ⟨"Привет", 1⟩,
    chatFetch := fun _ => .netError,
    synthesizeFetch := fun _ => .netError,
    audioFetch := fun _ => .netError }

/-- A connect followed by one successful open and then six transport
closes with the hook's reconnect timer firing in between: exactly the
"repeated close without successful reopen" scenario that exhausts the
default five-attempt budget. -/
def evsC2 : List WsEvent :=
  [.connectReq, .openEv, .closeEv, .timerEv, .closeEv, .timerEv, .closeEv, .timerEv,
   .closeEv, .timerEv, .closeEv, .timerEv, .closeEv]

/-- The stale-socket interleaving on the full model: `connect()` starts
socket 0; while it is still CONNECTING a second automatic `connect()`
(the 30 s health-check auto-connect, or the AvatarSystem 5 s timer
scheduled before the status changed) constructs socket 1 and replaces
the ref without closing socket 0; socket 1 opens, setting Connected;
then the abandoned socket 0's connection attempt fails and its
still-attached close handler fires, setting Disconnected. -/
def evsC7 : List WsFullEvent := [.connectReq, .connectReq, .openEv 1, .closeEv 0]

/-! ## Invariant lemmas -/

/-- `connect` preserves the connection-machine invariant. -/
theorem wsInv_connect (cfg : WsConfig) (s : HookState) (h : WsInv cfg s) :
    WsInv cfg (connect s) := by
  obtain ⟨h1, h2⟩ := h
  by_cases hw : s.ws = some .open
  · simpa [connect, hw] using ⟨h1, h2⟩
  · refine ⟨?_, ?_⟩ <;> simp [connect, hw]
    exact h2

/-- Every event of the connection machine preserves the invariant. -/
theorem wsInv_step (cfg : WsConfig) (s : HookState) (e : WsEvent)
    (h : WsInv cfg s) : WsInv cfg (wsStep cfg s e) := by
  obtain ⟨h1, h2⟩ := h
  cases e
  case connectReq => exact wsInv_connect cfg s ⟨h1, h2⟩
  case disconnectReq => exact ⟨by simp [wsStep, disconnect], by simp [wsStep, disconnect]⟩
  case openEv =>
    by_cases hw : s.ws = some .connecting
    · refine ⟨by simp [wsStep, openEvent, hw], by simp [wsStep, openEvent, hw]⟩
    · simpa [wsStep, openEvent, hw] using ⟨h1, h2⟩
  case closeEv =>
    unfold wsStep closeEvent
    cases hws : s.ws with
    | none => exact ⟨h1, h2⟩
    | some rs =>
      by_cases hrs : rs = .closed
      · simpa [hrs] using ⟨h1, h2⟩
      · by_cases hlt : s.reconnectAttempts < cfg.maxReconnectAttempts
        · refine ⟨by simp [hrs, hlt], by simp [hrs, hlt]; omega⟩
        · refine ⟨by simp [hrs, hlt], by simp [hrs, hlt]; omega⟩
  case errorEv =>
    unfold wsStep errorEvent
    cases hws : s.ws with
    | none => exact ⟨h1, h2⟩
    | some rs =>
      by_cases hrs : rs = .closed
      · simpa [hrs] using ⟨h1, h2⟩
      · refine ⟨by simp [hrs], by simp [hrs]; omega⟩
  case timerEv =>
    unfold wsStep timerFire
    by_cases hp : s.pendingReconnect
    · simp only [hp, if_true]
      exact wsInv_connect cfg _ ⟨h1, h2⟩
    · simpa [hp] using ⟨h1, h2⟩
  case avatarEffectEv =>
    unfold wsStep avatarEffectRun
    by_cases hd : s.connectionStatus = .Disconnected ∨ s.connectionStatus = .Error
    · refine ⟨by simpa [hd] using h1, by simpa [hd] using h2⟩
    · simpa [hd] using ⟨h1, h2⟩
  case avatarTimerEv =>
    unfold wsStep avatarTimerFire
    by_cases hp : s.avatarPending
    · simp only [hp, if_true]
      exact wsInv_connect cfg _ ⟨h1, h2⟩
    · simpa [hp] using ⟨h1, h2⟩

/-- The invariant is preserved by any event sequence. -/
theorem wsInv_foldl (cfg : WsConfig) (events : List WsEvent) :
    ∀ s : HookState, WsInv cfg s → WsInv cfg (events.foldl (wsStep cfg) s) := by
  induction events with
  | nil => intro s h; simpa using h
  | cons e rest ih =>
    intro s h
    simpa [List.foldl_cons] using ih (wsStep cfg s e) (wsInv_step cfg s e h)

/-- Every reachable state of the connection machine satisfies the
invariant. -/
theorem wsInv_run (cfg : WsConfig) (events : List WsEvent) :
    WsInv cfg (wsRun cfg events) :=
  wsInv_foldl cfg events wsInit (by constructor <;> simp [wsInit, WsInv])

/-- A list of length at most one containing `a` is exactly `[a]`. -/
theorem list_eq_singleton_of_mem {l : List Nat} {a : Nat}
    (h1 : l.length ≤ 1) (h2 : a ∈ l) : l = [a] := by
  match l with
  | [] => cases h2
  | [x] => simp only [List.mem_singleton] at h2; subst h2; rfl
  | x :: y :: t => simp only [List.length_cons] at h1; omega

/-- Every event of the VoiceRecorder machine preserves the single-flight
invariant: the `!audioBlob || isProcessing` guard is what keeps a second
pipeline run from starting while one is pending. -/
theorem vrInv_step (s : VrState) (e : VrEvent) (h : VrInv s) : VrInv (vrStep s e) := by
  obtain ⟨h1, h2⟩ := h
  cases e
  case recordDone => exact ⟨h1, h2⟩
  case invoke =>
    unfold vrStep vrInvoke
    by_cases hg : s.audioBlob.isNone || s.isProcessing
    · simpa [hg] using ⟨h1, h2⟩
    · simp only [Bool.or_eq_true, not_or, Bool.not_eq_true] at hg
      have hempty : s.activeRuns = [] := by
        by_contra hne
        have := h2.mpr hne
        simp [hg.2] at this
      simp [VrInv, Bool.or_eq_true, hg.1, hg.2, hempty]
  case completeOk rid =>
    unfold vrStep
    by_cases hm : rid ∈ s.activeRuns
    · have heq : s.activeRuns = [rid] := list_eq_singleton_of_mem h1 hm
      simp [VrInv, hm, heq, List.erase]
    · simpa [hm] using ⟨h1, h2⟩
  case completeErr rid =>
    unfold vrStep
    by_cases hm : rid ∈ s.activeRuns
    · have heq : s.activeRuns = [rid] := list_eq_singleton_of_mem h1 hm
      simp [VrInv, hm, heq, List.erase]
    · simpa [hm] using ⟨h1, h2⟩

/-- The single-flight invariant is preserved by any event sequence. -/
theorem vrInv_foldl (events : List VrEvent) :
    ∀ s : VrState, VrInv s → VrInv (events.foldl vrStep s) := by
  induction events with
  | nil => intro s h; simpa using h
  | cons e rest ih =>
    intro s h
    simpa [List.foldl_cons] using ih (vrStep s e) (vrInv_step s e h)

/-- Every reachable VoiceRecorder state satisfies the single-flight
invariant. -/
theorem vrInv_run (events : List VrEvent) : VrInv (vrRun events) :=
  vrInv_foldl events vrInit (by constructor <;> simp [vrInit, VrInv])

/-! ## Pipeline structure lemmas -/

/-- An error produced by `recognizeSpeech` belongs to the recognition
stage. -/
theorem recognizeSpeech_error_stage (env : ServiceEnv) (e : PipelineError)
    (h : recognizeSpeech env = .error e) : stageOf e = .recognition := by
  unfold recognizeSpeech at h
  rcases hbr : env.recognizeFetch with r | st | _ <;> rw [hbr] at h <;> simp at h <;>
    subst h <;> rfl

/-- An error produced by `getAIResponse` belongs to the generation
stage. -/
theorem getAIResponse_error_stage (env : ServiceEnv) (t : String) (e : PipelineError)
    (h : getAIResponse env t = .error e) : stageOf e = .generation := by
  unfold getAIResponse at h
  rcases hbr : env.chatFetch t with r | st | _ <;> rw [hbr] at h <;> simp at h <;>
    subst h <;> rfl

/-- An error produced by `synthesizeSpeech` belongs to the synthesis
stage. -/
theorem synthesizeSpeech_error_stage (env : ServiceEnv) (t : String) (e : PipelineError)
    (h : synthesizeSpeech env t = .error e) : stageOf e = .synthesis := by
  unfold synthesizeSpeech at h
  rcases hbr : env.synthesizeFetch t with raw | st | _ <;> rw [hbr] at h
  · simp only [] at h
    rcases hba : env.audioFetch raw.audio_id with u | st2 | _ <;> rw [hba] at h <;>
      simp at h <;> subst h <;> rfl
  · simp at h; subst h; rfl
  · simp at h; subst h; rfl

/-- Every `processAudioInput` run either succeeds having contacted all
three services in order, or fails having contacted exactly the services
up to and including the failing stage. -/
theorem processAudioInputT_cases (env : ServiceEnv) :
    ((∃ res, (processAudioInputT env).1 = .ok res) ∧
      (processAudioInputT env).2 = stagesUpTo .synthesis) ∨
    (∃ e, (processAudioInputT env).1 = .error e ∧
      (processAudioInputT env).2 = stagesUpTo (stageOf e)) := by
  unfold processAudioInputT
  rcases hr : recognizeSpeech env with er | r
  · right
    refine ⟨er, ?_, ?_⟩
    · simp only [hr]
    · simp only [hr]
      rw [recognizeSpeech_error_stage env er hr]
      rfl
  · by_cases ht : jsTrim r.text = ""
    · right
      refine ⟨.recognitionEmpty, ?_, ?_⟩
      · simp only [hr, if_pos ht]
      · simp only [hr, if_pos ht]
        rfl
    · rcases hg : getAIResponse env r.text with eg | a
      · right
        refine ⟨eg, ?_, ?_⟩
        · simp only [hr, if_neg ht, hg]
        · simp only [hr, if_neg ht, hg]
          rw [getAIResponse_error_stage env r.text eg hg]
          rfl
      · rcases hs : synthesizeSpeech env a.text with es | tts
        · right
          refine ⟨es, ?_, ?_⟩
          · simp only [hr, if_neg ht, hg, hs]
          · simp only [hr, if_neg ht, hg, hs]
            rw [synthesizeSpeech_error_stage env a.text es hs]
            rfl
        · left
          refine ⟨⟨⟨r.text, a.text, tts.audio_url⟩, ?_⟩, ?_⟩
          · simp only [hr, if_neg ht, hg, hs]
          · simp only [hr, if_neg ht, hg, hs]
            rfl

/-! ## Claim theorems -/

/-- Claim C1, counterexample.  In the state reached by recording and
then invoking `handleSendAudio` once, run 0 is active; a second,
overlapping `handleSendAudio` invocation leaves the state completely
unchanged: run 0 stays active and uncancelled, no new run starts, and
the second caller receives nothing (there is no Cancelled outcome
anywhere in this code), contradicting "invoking the pipeline while a
run is already active cancels the active run before starting the new
one". -/
theorem voiceRecorder_overlapping_invoke_not_cancelled :
    vrRun [.recordDone, .invoke] = ⟨some (), true, [0], 1⟩ ∧
    vrStep (vrRun [.recordDone, .invoke]) .invoke = vrRun [.recordDone, .invoke] :=
  ⟨rfl, rfl⟩

/-- Claim C1, amended.  At most one pipeline run is ever active (the
`!audioBlob || isProcessing` guard enforces single flight over every
event sequence), but an invocation made while a run is in flight is a
no-op that is simply ignored: the active run is not cancelled and
continues to its own completion. -/
theorem voiceRecorder_single_flight (events : List VrEvent) (s : VrState)
    (h : s.isProcessing = true) :
    (vrRun events).activeRuns.length ≤ 1 ∧ vrStep s .invoke = s := by
  refine ⟨(vrInv_run events).1, ?_⟩
  unfold vrStep vrInvoke
  simp [h]

/-- Claim C1, witness: the single-flight bound on a concrete trace
containing an overlapping invocation, and the no-op of invoking in a
concrete processing state. -/
theorem voiceRecorder_single_flight_witness :
    (vrRun [.recordDone, .invoke, .invoke, .completeOk 0]).activeRuns.length ≤ 1 ∧
    vrStep ⟨some (), true, [0], 1⟩ .invoke = ⟨some (), true, [0], 1⟩ :=
  voiceRecorder_single_flight [.recordDone, .invoke, .invoke, .completeOk 0]
    ⟨some (), true, [0], 1⟩ rfl

/-- Claim C2, counterexample.  After six consecutive transport closes
without a successful reopen the hook's counter is exhausted (5) and the
status is Error (the code's name for the spec's Failed); yet the
AvatarSystem effect then schedules a further automatic reconnect, and
when its timer fires a new transport is opened and the machine
re-enters Connecting — contradicting "no further automatic reconnect
attempt is scheduled". -/
theorem reconnect_attempts_continue_after_exhaustion :
    (wsRun defaultCfg evsC2).connectionStatus = .Error ∧
    (wsRun defaultCfg evsC2).reconnectAttempts = 5 ∧
    (wsRun defaultCfg evsC2).pendingReconnect = false ∧
    (wsRun defaultCfg (evsC2 ++ [.avatarEffectEv])).avatarPending = true ∧
    (wsRun defaultCfg (evsC2 ++ [.avatarEffectEv, .avatarTimerEv])).socketsOpened =
      (wsRun defaultCfg evsC2).socketsOpened + 1 ∧
    (wsRun defaultCfg (evsC2 ++ [.avatarEffectEv, .avatarTimerEv])).connectionStatus =
      .Connecting :=
  ⟨rfl, rfl, rfl, rfl, rfl, rfl⟩

/-- Claim C2, amended.  The hook's reconnect counter never exceeds the
configured maximum in any reachable state, and a close event arriving
with the counter exhausted leaves the counter and the hook's reconnect
timer untouched and sets the status to Error: the hook itself schedules
nothing further.  (The surrounding AvatarSystem effect nevertheless
keeps reconnecting, per the counterexample.) -/
theorem reconnect_counter_bounded (cfg : WsConfig) (events : List WsEvent) (s : HookState)
    (hmax : cfg.maxReconnectAttempts ≤ s.reconnectAttempts) :
    (wsRun cfg events).reconnectAttempts ≤ cfg.maxReconnectAttempts ∧
    (closeEvent cfg s).reconnectAttempts = s.reconnectAttempts ∧
    (closeEvent cfg s).pendingReconnect = s.pendingReconnect ∧
    (∀ rs, s.ws = some rs → rs ≠ .closed →
      (closeEvent cfg s).connectionStatus = .Error) := by
  have hnot : ¬ s.reconnectAttempts < cfg.maxReconnectAttempts := by omega
  refine ⟨(wsInv_run cfg events).2, ?_, ?_, ?_⟩
  · unfold closeEvent
    cases hws : s.ws with
    | none => rfl
    | some rs => by_cases hrs : rs = .closed <;> simp [hrs, hnot]
  · unfold closeEvent
    cases hws : s.ws with
    | none => rfl
    | some rs => by_cases hrs : rs = .closed <;> simp [hrs, hnot]
  · intro rs hws hrs
    unfold closeEvent
    rw [hws]
    simp [hrs, hnot]

/-- Claim C2, witness: the counter bound on the concrete exhaustion
trace, and the exhausted-close behaviour on a concrete state with an
open socket and counter 5. -/
theorem reconnect_counter_bounded_witness :
    (wsRun defaultCfg evsC2).reconnectAttempts ≤ defaultCfg.maxReconnectAttempts ∧
    (closeEvent defaultCfg
      ⟨.Disconnected, 5, some .open, true, false, 3, []⟩).reconnectAttempts = 5 ∧
    (closeEvent defaultCfg
      ⟨.Disconnected, 5, some .open, true, false, 3, []⟩).pendingReconnect = true ∧
    (∀ rs, (⟨.Disconnected, 5, some .open, true, false, 3, []⟩ : HookState).ws = some rs →
      rs ≠ .closed →
      (closeEvent defaultCfg
        ⟨.Disconnected, 5, some .open, true, false, 3, []⟩).connectionStatus = .Error) :=
  reconnect_counter_bounded defaultCfg evsC2
    ⟨.Disconnected, 5, some .open, true, false, 3, []⟩ (by decide)

/-- Claim C3, code bug.  On the fully successful run (recognized
"Привет", response "Здравствуй", media "blob:a1") the completed run
carries all three values, and the AvatarSystem path appends the user
message with the recognized text followed by the assistant message with
the response text, as the claim states.  But on the live AvatarPage
path the VoiceRecorder passes only the AI response upward and the page
wiring fills `recognizedText` with `resp.text`, so the appended user
message carries the response text "Здравствуй" instead of the
recognized input "Привет" — the code contradicts its own
"Распознанный текст" logging and the claim. -/
theorem avatarPage_user_message_carries_response_text :
    processAudioInput envHello = .ok ⟨"Привет", "Здравствуй", "blob:a1"⟩ ∧
    systemProcessAudioInput envHello ⟨[], false, none⟩ =
      ⟨[⟨.user, "Привет", none⟩, ⟨.assistant, "Здравствуй", some "blob:a1"⟩],
        false, none⟩ ∧
    avatarPageAudioFlow envHello [] = [⟨.user, "Здравствуй"⟩, ⟨.avatar, "Здравствуй"⟩] ∧
    avatarPageAudioFlow envHello [] ≠ [⟨.user, "Привет"⟩, ⟨.avatar, "Здравствуй"⟩] :=
  ⟨rfl, rfl, rfl, by decide⟩

/-- Claim C4 (confirmed).  Whenever recognition succeeds with text that
trims to empty, the run terminates with the empty-recognition error
having contacted only the recognition service (the trace
`[.recognition]` shows the generation service is never invoked), and
neither the AvatarSystem nor the AvatarPage path appends any message. -/
theorem recognition_empty_terminal_no_messages (env : ServiceEnv)
    (r : RecognitionResponse) (s : SysState) (pmsgs : List PageMsg)
    (h1 : env.recognizeFetch = .ok r) (h2 : jsTrim r.text = "") :
    processAudioInputT env = (.error .recognitionEmpty, [.recognition]) ∧
    (systemProcessAudioInput env s).messages = s.messages ∧
    avatarPageAudioFlow env pmsgs = pmsgs := by
  have hrun : processAudioInputT env = (.error .recognitionEmpty, [.recognition]) := by
    unfold processAudioInputT recognizeSpeech
    rw [h1]
    simp [h2]
  refine ⟨hrun, ?_, ?_⟩
  · unfold systemProcessAudioInput processAudioInput
    rw [hrun]
  · unfold avatarPageAudioFlow processAudioInput
    rw [hrun]

/-- Claim C4, witness: the whitespace-only recognition environment. -/
theorem recognition_empty_witness :
    envEmptyRec.recognizeFetch = .ok ⟨"   ", 0⟩ ∧
    jsTrim "   " = "" ∧
    processAudioInputT envEmptyRec = (.error .recognitionEmpty, [.recognition]) ∧
    (systemProcessAudioInput envEmptyRec ⟨[], false, none⟩).messages = [] ∧
    avatarPageAudioFlow envEmptyRec [] = [] := by
  have h := recognition_empty_terminal_no_messages envEmptyRec ⟨"   ", 0⟩
    ⟨[], false, none⟩ [] rfl rfl
  exact ⟨rfl, rfl, h.1, h.2.1, h.2.2⟩

/-- Claim C5, counterexample.  A transport-level rejection of the
recognition fetch and one of the generation fetch terminate their runs
at different stages, yet surface the identical generic error message
"Failed to fetch": the error the caller receives is not tagged with the
failing stage, contradicting "terminates immediately with an error
tagged with that stage" for this failure kind. -/
theorem network_failure_not_stage_tagged :
    processAudioInputT envRecNet = (.error .recognitionNetwork, [.recognition]) ∧
    processAudioInputT envChatNet =
      (.error .generationNetwork, [.recognition, .generation]) ∧
    errMessage .recognitionNetwork = errMessage .generationNetwork :=
  ⟨rfl, rfl, rfl⟩

/-- Claim C5, amended.  Whenever any stage fails, the run terminates
immediately and the services contacted are exactly those up to and
including the failing stage — no later stage is ever called.  Failures
from non-ok HTTP responses carry a stage-specific message, but
transport-level rejections surface a generic message that does not name
the stage (see the counterexample). -/
theorem stage_failure_halts_at_failing_stage (env : ServiceEnv) (e : PipelineError)
    (h : (processAudioInputT env).1 = .error e) :
    (processAudioInputT env).2 = stagesUpTo (stageOf e) := by
  rcases processAudioInputT_cases env with ⟨⟨res, hok⟩, _⟩ | ⟨e', he, htr⟩
  · rw [hok] at h; cases h
  · rw [he] at h
    simp only [Except.error.injEq] at h
    subst h
    exact htr

/-- Claim C5, witness: a generation-stage HTTP 500 halts the run after
recognition and generation; the synthesis service is never contacted. -/
theorem stage_failure_halts_witness :
    (processAudioInputT envChatFail).1 = .error (.generationFailed 500) ∧
    (processAudioInputT envChatFail).2 = stagesUpTo (stageOf (.generationFailed 500)) :=
  ⟨rfl, stage_failure_halts_at_failing_stage envChatFail (.generationFailed 500) rfl⟩

/-- Claim C6, counterexample.  `handleSendAudio` invoked with the
connection down (`isConnected = false`) but a blob recorded and no run
in flight does not fail with any ConnectionRequired outcome — it
contacts all three inference services and completes the run
successfully, contradicting "returns a ConnectionRequired failure
immediately, without contacting any inference service". -/
theorem pipeline_runs_when_disconnected :
    handleSendAudioRun false envHello ⟨some (), false, none⟩ =
      (⟨none, false, none⟩, [.recognition, .generation, .synthesis]) := rfl

/-- Claim C6, amended.  The pipeline invocation performs no
connection-state check at all: `handleSendAudio` behaves identically
for every value of the `isConnected` prop, and whenever its
blob/processing guard passes, the recognition service is the first
service contacted regardless of connection state.  (The only connection
check on this path sits at recording start, in
`handleStartRecording`.) -/
theorem handleSendAudio_ignores_connection_state (b1 b2 : Bool) (env : ServiceEnv)
    (s : SendState) (h1 : s.audioBlob.isSome = true) (h2 : s.isProcessing = false) :
    handleSendAudioRun b1 env s = handleSendAudioRun b2 env s ∧
    ((handleSendAudioRun b1 env s).2).head? = some .recognition := by
  refine ⟨rfl, ?_⟩
  unfold handleSendAudioRun
  have hg : (s.audioBlob.isNone || s.isProcessing) = false := by
    cases hb : s.audioBlob with
    | none => rw [hb] at h1; cases h1
    | some u => simp [hb, h2]
  rw [hg]
  simp only [Bool.false_eq_true, if_false]
  rcases processAudioInputT_cases env with ⟨⟨res, hok⟩, htr⟩ | ⟨e, he, htr⟩
  · rcases hp : processAudioInputT env with ⟨v, tr⟩
    rw [hp] at hok htr
    simp only at hok htr
    rw [hok, htr]
    rfl
  · rcases hp : processAudioInputT env with ⟨v, tr⟩
    rw [hp] at he htr
    simp only at he htr
    rw [he, htr]
    cases stageOf e <;> rfl

/-- Claim C6, witness: with a recorded blob, no run in flight and a
failing generation service, connected and disconnected invocations
coincide and recognition is contacted first. -/
theorem handleSendAudio_ignores_connection_witness :
    handleSendAudioRun true envChatFail ⟨some (), false, none⟩ =
      handleSendAudioRun false envChatFail ⟨some (), false, none⟩ ∧
    ((handleSendAudioRun true envChatFail ⟨some (), false, none⟩).2).head? =
      some .recognition :=
  handleSendAudio_ignores_connection_state true false envChatFail
    ⟨some (), false, none⟩ rfl rfl

/-- Claim C7, counterexample.  After the stale-socket interleaving
`evsC7` the connection state is Disconnected — the replaced socket 0's
still-attached close handler set it — while the referenced socket 1 is
OPEN; in this reachable state `sendMessage` hands the payload to the
transport and returns `true`.  A send succeeds, and mutates the
transport log, in a connection state other than Connected,
contradicting "for every connection state other than Connected,
send(message) returns a failure result ... without mutating any session
state". -/
theorem stale_close_send_succeeds_while_disconnected :
    (wsFullRun defaultCfg evsC7).connectionStatus = .Disconnected ∧
    refReadyState (wsFullRun defaultCfg evsC7) = some .open ∧
    (sendMessageFull (wsFullRun defaultCfg evsC7) "ping").2 = true ∧
    (sendMessageFull (wsFullRun defaultCfg evsC7) "ping").1.sentLog = ["ping"] :=
  ⟨rfl, rfl, rfl, rfl⟩

/-- Claim C7, amended.  `send(message)` is gated by the referenced
socket, not by the connection state: in every reachable state of the
full machine it never throws, returns the failure result `false`
without mutating anything whenever `wsRef.current` is not OPEN, and
sends and reports success exactly when `wsRef.current` is OPEN —
appending precisely the payload to the transport log.  Success is not
confined to the Connected state, because a replaced socket's stale
close handler can set the state to Disconnected while the referenced
socket stays OPEN (the counterexample trace). -/
theorem sendMessage_gated_by_referenced_socket (cfg : WsConfig)
    (events : List WsFullEvent) (m : String) :
    (refOpen (wsFullRun cfg events) = false →
      sendMessageFull (wsFullRun cfg events) m = (wsFullRun cfg events, false)) ∧
    ((sendMessageFull (wsFullRun cfg events) m).2 = true ↔
      refOpen (wsFullRun cfg events) = true) ∧
    (refOpen (wsFullRun cfg events) = true →
      sendMessageFull (wsFullRun cfg events) m =
        ({ wsFullRun cfg events with
            sentLog := (wsFullRun cfg events).sentLog ++ [m] }, true)) := by
  unfold sendMessageFull
  by_cases h : refOpen (wsFullRun cfg events) = true
  · simp [h]
  · have hf : refOpen (wsFullRun cfg events) = false := by
      cases hx : refOpen (wsFullRun cfg events)
      · rfl
      · exact absurd hx h
    simp [hf]

/-- Claim C7, witness: sending while the only socket is still
CONNECTING fails and changes nothing; sending after it opens succeeds
and appends exactly the payload. -/
theorem sendMessage_gated_witness :
    sendMessageFull (wsFullRun defaultCfg [.connectReq]) "ping" =
      (wsFullRun defaultCfg [.connectReq], false) ∧
    sendMessageFull (wsFullRun defaultCfg [.connectReq, .openEv 0]) "ping" =
      ({ wsFullRun defaultCfg [.connectReq, .openEv 0] with
          sentLog := (wsFullRun defaultCfg [.connectReq, .openEv 0]).sentLog ++ ["ping"] },
        true) :=
  ⟨(sendMessage_gated_by_referenced_socket defaultCfg [.connectReq] "ping").1 (by decide),
   (sendMessage_gated_by_referenced_socket defaultCfg [.connectReq, .openEv 0] "ping").2.2
     (by decide)⟩

/-- Claim C8, amended.  `checkServices` derives each service's up/down
flag from that service's own probe alone — a rejection or failure of
one probe never blocks or alters another's result — and returns the
combined status exactly when every probe has settled.  There is,
however, no timeout on these probes: a probe that never settles leaves
the combined result pending (see the counterexample). -/
theorem checkServices_per_probe (pa pb pc : Option Settled) :
    (∀ sa sb sc, pa = some sa → pb = some sb → pc = some sc →
      checkServices pa pb pc = some ⟨settledOk sa, settledOk sb, settledOk sc⟩) ∧
    (checkServices pa pb pc = none ↔ (pa = none ∨ pb = none ∨ pc = none)) := by
  refine ⟨?_, ?_⟩
  · intro sa sb sc ha hb hc
    subst ha; subst hb; subst hc
    rfl
  · cases pa <;> cases pb <;> cases pc <;> simp [checkServices, allSettled3]

/-- Claim C8, witness: one healthy, one rejected and one unhealthy
probe settle into the expected independent flags. -/
theorem checkServices_per_probe_witness :
    checkServices (some (.fulfilled true)) (some .rejected) (some (.fulfilled false)) =
      some ⟨true, false, false⟩ :=
  (checkServices_per_probe (some (.fulfilled true)) (some .rejected)
    (some (.fulfilled false))).1 (.fulfilled true) .rejected (.fulfilled false) rfl rfl rfl

/-- Claim C8, counterexample.  With the backend probe hanging forever
and both other probes already resolved successfully, `checkServices`
produces no combined status at all: the code attaches no timeout to the
probes, so the hanging probe is left pending instead of being treated
as a failure, contradicting "timeout treated as failure rather than
left pending". -/
theorem checkServices_pending_probe_blocks_result :
    checkServices none (some (.fulfilled true)) (some (.fulfilled true)) = none := rfl

/-- Claim C9, counterexample.  In the reachable Connecting state (one
bare `connect()`, socket still CONNECTING), a second `connect()` is not
a no-op: it constructs and opens a new transport (the socket count
increments), replacing the pending socket without closing it —
contradicting "no-op if already Connecting or Connected". -/
theorem connect_during_connecting_opens_new_socket :
    (wsRun defaultCfg [.connectReq]).connectionStatus = .Connecting ∧
    connect (wsRun defaultCfg [.connectReq]) ≠ wsRun defaultCfg [.connectReq] ∧
    (connect (wsRun defaultCfg [.connectReq])).socketsOpened =
      (wsRun defaultCfg [.connectReq]).socketsOpened + 1 ∧
    (connect (wsRun defaultCfg [.connectReq])).connectionStatus = .Connecting :=
  ⟨rfl, by decide, rfl, rfl⟩

/-- Claim C9, amended.  `connect()` is a no-op — and hence idempotent —
only when the current socket is already OPEN (the Connected state); the
early-return guard checks `readyState === OPEN` and nothing else. -/
theorem connect_noop_when_open (s : HookState) (h : s.ws = some .open) :
    connect s = s ∧ connect (connect s) = connect s := by
  have h1 : connect s = s := by unfold connect; rw [if_pos h]
  exact ⟨h1, by rw [h1, h1]⟩

/-- Claim C9, witness: `connect()` on a concrete Connected state with
an open socket changes nothing. -/
theorem connect_noop_when_open_witness :
    connect ⟨.Connected, 0, some .open, false, false, 1, []⟩ =
      ⟨.Connected, 0, some .open, false, false, 1, []⟩ :=
  (connect_noop_when_open ⟨.Connected, 0, some .open, false, false, 1, []⟩ rfl).1

/-- Claim C10 (confirmed).  When the input text trims to empty, both
text-send handlers return before doing anything: no message is
appended, nothing is sent over the connection, and the entire component
state is unchanged. -/
theorem empty_text_send_noop (s : TextState) (c : ChatState)
    (hs : jsTrim s.inputText = "") (hc : jsTrim c.inputText = "") :
    handleSendText s = s ∧ handleSendMessage c = c := by
  constructor
  · unfold handleSendText
    rw [if_pos (Or.inl hs)]
  · unfold handleSendMessage
    rw [if_pos (Or.inl hc)]

/-- Claim C10, witness: whitespace-only inputs in connected, idle
states are no-ops. -/
theorem empty_text_send_noop_witness :
    handleSendText ⟨[], "   ", false, true, []⟩ = ⟨[], "   ", false, true, []⟩ ∧
    handleSendMessage ⟨[], " ", true, false⟩ = ⟨[], " ", true, false⟩ :=
  empty_text_send_noop ⟨[], "   ", false, true, []⟩ ⟨[], " ", true, false⟩ rfl rfl
